import Mathlib

/-
Verification development for the ADB_connector desktop utility.

The Python sources are shallowly embedded: Python strings are Lean
Strings, str methods are re-implemented structurally over List Char so
that every definition is executable inside the kernel; Python sets are
deduplicated List String values; subprocess invocations are modelled by
environment records carrying the exit code and captured output of each
external command (an Option value where a call can raise, e.g. on
timeout); callbacks are modelled as emitted event values.
-/

/- ====================================================================
   § 0. Python string primitives (str.split, str.strip, str.lower,
        substring membership, int parsing), structural over List Char.
   ==================================================================== -/

/-- Model of Python str.split(c) for a single-character separator:
splits on every occurrence, keeping empty pieces. -/
def splitOnChar (c : Char) : List Char → List (List Char)
  | [] => [[]]
  | x :: xs =>
    match splitOnChar c xs with
    | h :: t => if x = c then [] :: h :: t else (x :: h) :: t
    | [] => [[x]]

/-- String wrapper for splitOnChar. -/
def splitS (s : String) (c : Char) : List String :=
  (splitOnChar c s.data).map String.mk

/-- Whether one character list starts with another (used for substring search). -/
def isPre : List Char → List Char → Bool
  | [], _ => true
  | _ :: _, [] => false
  | p :: ps, x :: xs => p = x && isPre ps xs

/-- Model of Python membership test pat in s on strings (substring search). -/
def containsSub (pat : List Char) : List Char → Bool
  | [] => pat.isEmpty
  | s@(_ :: rest) => isPre pat s || containsSub pat rest

/-- String-level substring test, argument order as in Python pat in s. -/
def pyIn (pat s : String) : Bool := containsSub pat.data s.data

/-- Whitespace characters stripped by Python str.strip(). -/
def isWsChar (c : Char) : Bool :=
  c = ' ' || c = '\t' || c = '\n' || c = '\r' || c = '\x0b' || c = '\x0c'

/-- Drop leading whitespace of a character list. -/
def dropWs : List Char → List Char
  | [] => []
  | c :: cs => if isWsChar c then dropWs cs else c :: cs

/-- Model of Python str.strip() on character lists. -/
def trimL (l : List Char) : List Char := dropWs ((dropWs l.reverse).reverse)

/-- Model of Python str.strip() on strings. -/
def trimS (s : String) : String := String.mk (trimL s.data)

/-- Model of Python int(s) restricted to plain digit strings (the only
shapes the code ever feeds it): all-digit, non-empty. -/
def digitsToNat (l : List Char) : Option Nat :=
  if l ≠ [] ∧ l.all Char.isDigit then
    some (l.foldl (fun a c => a * 10 + (c.toNat - 48)) 0)
  else none

/-- ASCII lower-casing of one character, as Python str.lower() does on
the ASCII output the bridge produces. -/
def lowerChar (c : Char) : Char :=
  if 'A' ≤ c ∧ c ≤ 'Z' then Char.ofNat (c.toNat + 32) else c

/-- Model of Python str.lower(). -/
def lowerS (s : String) : String := String.mk (s.data.map lowerChar)

/-- Break a character list at the first occurrence of a (non-empty)
pattern, returning the parts before and after it; none when the pattern
does not occur. -/
def breakAtSub (pat : List Char) : List Char → Option (List Char × List Char)
  | [] => if pat.isEmpty then some ([], []) else none
  | s@(c :: rest) =>
    if isPre pat s then some ([], s.drop pat.length)
    else
      match breakAtSub pat rest with
      | some (bef, post) => some (c :: bef, post)
      | none => none

/-- Model of Python s.split(pat)[1] for a multi-character pattern: the
piece between the first and second occurrence of pat (or everything
after the first occurrence when it is the only one); none when pat does
not occur (Python would raise IndexError). -/
def splitPart1 (pat : List Char) (s : List Char) : Option (List Char) :=
  match breakAtSub pat s with
  | none => none
  | some (_, post) =>
    match breakAtSub pat post with
    | some (mid, _) => some mid
    | none => some post

/-- Model of Python s.split()[0]: strip, then the first maximal run of
non-whitespace characters; none when the stripped string is empty
(Python would raise IndexError). -/
def firstToken (l : List Char) : Option String :=
  match dropWs l with
  | [] => none
  | c :: cs => some (String.mk (c :: cs.takeWhile (fun x => ¬ isWsChar x)))

/-- Indexing helper for the results of splitS, defaulting to the empty
string (used only where the source guarantees the index exists). -/
def partAt (l : List String) (i : Nat) : String := l.getD i ""

/- ====================================================================
   § 1. IPv4 parsing as performed by Python ipaddress.IPv4Network
        (dotted-quad addresses, netmask / hostmask / prefix-length
        masks), and the two subnet comparisons of the source.
   ==================================================================== -/

/-- Whether a textual octet has a superfluous leading zero, which
ipaddress rejects as ambiguous. -/
def hasLeadingZero (s : String) : Bool :=
  match s.data with
  | '0' :: _ :: _ => true
  | _ => false

/-- Model of ipaddress octet parsing: digits only, value at most 255,
no leading zero (a bare zero is allowed). -/
def parseOctet (s : String) : Option Nat :=
  match digitsToNat s.data with
  | some n => if n ≤ 255 ∧ ¬ hasLeadingZero s then some n else none
  | none => none

/-- Model of ipaddress dotted-quad parsing: exactly four octets. -/
def parseIPv4 (s : String) : Option (Nat × Nat × Nat × Nat) :=
  match splitS s '.' with
  | [a, b, c, d] =>
    match parseOctet a, parseOctet b, parseOctet c, parseOctet d with
    | some w, some x, some y, some z => some (w, x, y, z)
    | _, _, _, _ => none
  | _ => none

/-- Numeric value of a parsed IPv4 address. -/
def ipNum : Nat × Nat × Nat × Nat → Nat
  | (a, b, c, d) => a * 2 ^ 24 + b * 2 ^ 16 + c * 2 ^ 8 + d

/-- Length of the run of leading one bits of a 32-bit mask value, if the
value consists of ones followed by zeros; none otherwise. -/
def maskBitsToLen (v : Nat) : Option Nat :=
  (List.range 33).find? fun p => v = 2 ^ 32 - 2 ^ (32 - p)

/-- Model of how ipaddress turns the mask part of an ip/mask string into
a CIDR length: a plain integer 0..32, a dotted netmask with
contiguous one bits, or a dotted hostmask. -/
def maskLen (m : String) : Option Nat :=
  match digitsToNat m.data with
  | some n => if n ≤ 32 then some n else none
  | none =>
    match parseIPv4 m with
    | some q =>
      match maskBitsToLen (ipNum q) with
      | some p => some p
      | none => maskBitsToLen (2 ^ 32 - 1 - ipNum q)
    | none => none

namespace NetworkDetector

/-- NetworkDetector.is_same_network (src/src/network_detector.py):
builds IPv4Network objects for the stored PC address and the device
address at the stored mask and compares them for equality; any parse
failure, or an unset PC address or mask (modelled as the empty string,
the falsy case), yields False. -/
def is_same_network (pc_ip network_mask device_ip : String) : Bool :=
  if pc_ip = "" ∨ network_mask = "" then false
  else
    match parseIPv4 pc_ip, parseIPv4 device_ip, maskLen network_mask with
    | some qa, some qb, some p =>
      ipNum qa / 2 ^ (32 - p) == ipNum qb / 2 ^ (32 - p)
    | _, _, _ => false

/-- List of masks the detector can infer for a host address
(network_detector.py _get_network_info common_masks, with the /24
default). -/
def inferredMasks : List String := ["255.255.255.0", "255.255.0.0", "255.0.0.0"]

end NetworkDetector

namespace PhoneConnectorApp

/-- PhoneConnectorApp.is_same_network (src/main.py): the shortcut used
by the auto-promotion path, comparing the first three dot-separated
components of the two strings for literal equality. -/
def is_same_network (ip1 ip2 : String) : Bool :=
  match splitS ip1 '.', splitS ip2 '.' with
  | [a1, b1, c1, _], [a2, b2, c2, _] => a1 == a2 && b1 == b2 && c1 == c2
  | _, _ => false

end PhoneConnectorApp

/-- Modelled from the spec: the network of an address at a mask, written
as the spec describes isSameSubnet (computes both networks at the given
mask and compares equality): the network address together with the
prefix length. -/
def networkAt (ip mask : String) : Option (Nat × Nat) :=
  match parseIPv4 ip, maskLen mask with
  | some q, some p => some ((ipNum q / 2 ^ (32 - p)) * 2 ^ (32 - p), p)
  | _, _ => none

/-- Canonically written octet: parses, and is the standard decimal
rendering of its value (so distinct canonical octets denote distinct
values). -/
def canonOctet (s : String) : Bool :=
  match parseOctet s with
  | some n => s == Nat.repr n
  | none => false

/-- Canonically written dotted-quad IPv4 address. -/
def canonIPv4 (s : String) : Bool :=
  match splitS s '.' with
  | [a, b, c, d] => canonOctet a && canonOctet b && canonOctet c && canonOctet d
  | _ => false

/- ====================================================================
   § 2. Subnet-comparison lemmas and the claims C3 and C8.
   ==================================================================== -/

lemma parseOctet_le {s : String} {n : Nat} (h : parseOctet s = some n) : n ≤ 255 := by
  unfold parseOctet at h
  split at h
  · split at h
    · cases h
      omega
    · cases h
  · cases h

lemma canonOctet_spec {s : String} (h : canonOctet s = true) :
    ∃ n, parseOctet s = some n ∧ s = Nat.repr n ∧ n ≤ 255 := by
  unfold canonOctet at h
  split at h
  case h_1 n hp => exact ⟨n, hp, eq_of_beq h, parseOctet_le hp⟩
  case h_2 => cases h

lemma ipNum_div_2pow8 (a b c d : Nat) (hd : d ≤ 255) :
    ipNum (a, b, c, d) / 2 ^ 8 = a * 2 ^ 16 + b * 2 ^ 8 + c := by
  show (a * 2 ^ 24 + b * 2 ^ 16 + c * 2 ^ 8 + d) / 2 ^ 8 = a * 2 ^ 16 + b * 2 ^ 8 + c
  have hrw : a * 2 ^ 24 + b * 2 ^ 16 + c * 2 ^ 8 + d
      = 2 ^ 8 * (a * 2 ^ 16 + b * 2 ^ 8 + c) + d := by ring
  rw [hrw, Nat.mul_add_div (by norm_num), Nat.div_eq_of_lt (by omega)]
  omega

lemma maskLen_24 : maskLen "255.255.255.0" = some 24 := by decide

lemma splitS_empty : splitS "" '.' = [""] := by decide

/-- C3 counterexample: during auto-promotion the orchestration layer
decides same-subnet with a first-three-octet string compare, and at the
inferred mask 255.255.0.0 this disagrees with the formal CIDR
comparison of NetworkDetector on the pair 10.1.2.3 / 10.1.3.4. -/
theorem C3_promotion_check_counterexample :
    PhoneConnectorApp.is_same_network "10.1.2.3" "10.1.3.4" = false ∧
    NetworkDetector.is_same_network "10.1.2.3" "255.255.0.0" "10.1.3.4" = true ∧
    "255.255.0.0" ∈ NetworkDetector.inferredMasks := by decide

/-- C3 (amended): the auto-promotion path decides same-subnet with
PhoneConnectorApp.is_same_network, a first-three-octet string compare,
not with the formal CIDR comparison; on canonically written dotted-quad
addresses the two agree exactly when the inferred mask is /24
(255.255.255.0), and they can disagree at the other inferred masks. -/
theorem C3_promotion_check_at_slash24 :
    ∀ ip1 ip2 : String, canonIPv4 ip1 = true → canonIPv4 ip2 = true →
      PhoneConnectorApp.is_same_network ip1 ip2 =
        NetworkDetector.is_same_network ip1 "255.255.255.0" ip2 := by
  intro ip1 ip2 h1 h2
  unfold canonIPv4 at h1 h2
  split at h1
  case h_2 => cases h1
  case h_1 a1 b1 c1 d1 heq1 =>
  split at h2
  case h_2 => cases h2
  case h_1 a2 b2 c2 d2 heq2 =>
  simp only [Bool.and_eq_true] at h1 h2
  obtain ⟨⟨⟨ha1, hb1⟩, hc1⟩, hd1⟩ := h1
  obtain ⟨⟨⟨ha2, hb2⟩, hc2⟩, hd2⟩ := h2
  obtain ⟨na1, hpa1, hra1, hla1⟩ := canonOctet_spec ha1
  obtain ⟨nb1, hpb1, hrb1, hlb1⟩ := canonOctet_spec hb1
  obtain ⟨nc1, hpc1, hrc1, hlc1⟩ := canonOctet_spec hc1
  obtain ⟨nd1, hpd1, hrd1, hld1⟩ := canonOctet_spec hd1
  obtain ⟨na2, hpa2, hra2, hla2⟩ := canonOctet_spec ha2
  obtain ⟨nb2, hpb2, hrb2, hlb2⟩ := canonOctet_spec hb2
  obtain ⟨nc2, hpc2, hrc2, hlc2⟩ := canonOctet_spec hc2
  obtain ⟨nd2, hpd2, hrd2, hld2⟩ := canonOctet_spec hd2
  have hip1 : parseIPv4 ip1 = some (na1, nb1, nc1, nd1) := by
    unfold parseIPv4
    rw [heq1]
    simp only [hpa1, hpb1, hpc1, hpd1]
  have hip2 : parseIPv4 ip2 = some (na2, nb2, nc2, nd2) := by
    unfold parseIPv4
    rw [heq2]
    simp only [hpa2, hpb2, hpc2, hpd2]
  have hne1 : ip1 ≠ "" := by
    intro he
    rw [he, splitS_empty] at heq1
    cases heq1
  have hlhs : PhoneConnectorApp.is_same_network ip1 ip2
      = (a1 == a2 && (b1 == b2 && c1 == c2)) := by
    unfold PhoneConnectorApp.is_same_network
    rw [heq1, heq2]
    simp [Bool.and_assoc]
  have hrhs : NetworkDetector.is_same_network ip1 "255.255.255.0" ip2
      = (ipNum (na1, nb1, nc1, nd1) / 2 ^ 8 == ipNum (na2, nb2, nc2, nd2) / 2 ^ 8) := by
    unfold NetworkDetector.is_same_network
    rw [if_neg (by simp [hne1])]
    rw [hip1, hip2, maskLen_24]
  rw [hlhs, hrhs, ipNum_div_2pow8 _ _ _ _ hld1, ipNum_div_2pow8 _ _ _ _ hld2]
  rw [Bool.eq_iff_iff]
  simp only [Bool.and_eq_true, beq_iff_eq]
  constructor
  · rintro ⟨hA, hB, hC⟩
    have e1 : na1 = na2 := by
      have := hpa1
      rw [hA, hpa2] at this
      exact (Option.some_inj.mp this).symm
    have e2 : nb1 = nb2 := by
      have := hpb1
      rw [hB, hpb2] at this
      exact (Option.some_inj.mp this).symm
    have e3 : nc1 = nc2 := by
      have := hpc1
      rw [hC, hpc2] at this
      exact (Option.some_inj.mp this).symm
    rw [e1, e2, e3]
  · intro h
    have e1 : na1 = na2 ∧ nb1 = nb2 ∧ nc1 = nc2 := by omega
    refine ⟨?_, ?_, ?_⟩
    · rw [hra1, hra2, e1.1]
    · rw [hrb1, hrb2, e1.2.1]
    · rw [hrc1, hrc2, e1.2.2]

/-- Witness for C3: the amended agreement theorem applied at the
concrete canonical pair 192.168.1.5 / 192.168.1.200. -/
theorem C3_promotion_check_at_slash24_witness :
    PhoneConnectorApp.is_same_network "192.168.1.5" "192.168.1.200" =
      NetworkDetector.is_same_network "192.168.1.5" "255.255.255.0" "192.168.1.200" :=
  C3_promotion_check_at_slash24 "192.168.1.5" "192.168.1.200" (by decide) (by decide)

/-- C8: NetworkDetector.is_same_network is the formal comparison: it
succeeds exactly when both addresses parse, the stored mask yields a
CIDR length, and the two network objects computed at that mask are
equal (networkAt); in particular, from host 192.168.1.5 with mask
255.255.255.0 it accepts 192.168.1.200 and rejects 192.168.2.5. -/
theorem C8_is_same_network_cidr :
    (∀ pc mask dev : String,
        NetworkDetector.is_same_network pc mask dev = true ↔
          pc ≠ "" ∧ mask ≠ "" ∧
            ∃ n, networkAt pc mask = some n ∧ networkAt dev mask = some n)
    ∧ NetworkDetector.is_same_network "192.168.1.5" "255.255.255.0" "192.168.1.200" = true
    ∧ NetworkDetector.is_same_network "192.168.1.5" "255.255.255.0" "192.168.2.5" = false := by
  refine ⟨?_, by decide, by decide⟩
  intro pc mask dev
  unfold NetworkDetector.is_same_network networkAt
  by_cases hpc : pc = ""
  · simp [hpc]
  by_cases hm : mask = ""
  · simp [hm]
  rw [if_neg (by simp [hpc, hm])]
  cases hq1 : parseIPv4 pc with
  | none => simp [hq1, hpc, hm]
  | some qa =>
    cases hq2 : parseIPv4 dev with
    | none =>
      cases hp : maskLen mask with
      | none => simp [hq2, hp, hpc, hm]
      | some p => simp [hq2, hp, hpc, hm]
    | some qb =>
      cases hp : maskLen mask with
      | none => simp [hq2, hp, hpc, hm]
      | some p =>
        simp only [hq2, hp, beq_iff_eq, Option.some_inj]
        constructor
        · intro h
          exact ⟨hpc, hm, ((ipNum qa / 2 ^ (32 - p)) * 2 ^ (32 - p), p), rfl, by rw [h]⟩
        · rintro ⟨-, -, n, h1, h2⟩
          have h3 : ((ipNum qa / 2 ^ (32 - p)) * 2 ^ (32 - p), p)
              = (((ipNum qb / 2 ^ (32 - p)) * 2 ^ (32 - p), p) : Nat × Nat) :=
            h1.trans h2.symm
          have h4 : (ipNum qa / 2 ^ (32 - p)) * 2 ^ (32 - p)
              = (ipNum qb / 2 ^ (32 - p)) * 2 ^ (32 - p) := congrArg Prod.fst h3
          exact Nat.eq_of_mul_eq_mul_right (Nat.pos_pow_of_pos _ (by norm_num)) h4

/-- Witness for C8: the characterisation applied at a concrete triple. -/
theorem C8_is_same_network_cidr_witness :
    NetworkDetector.is_same_network "192.168.1.5" "255.255.255.0" "192.168.1.200" = true :=
  C8_is_same_network_cidr.2.1

/- ====================================================================
   § 3. DeviceManager.scan_devices (src/src/device_manager.py) and
        claim C2.  The parser drops the header line, then for each line
        that has a non-blank strip and contains a tab it unpacks
        line.strip().split on tab into exactly (identifier, state); a
        line producing any other number of fields raises ValueError,
        which the surrounding handler turns into an overall result of
        the empty list.
   ==================================================================== -/

namespace DeviceManager

/-- Outcome of one line of the devices listing inside scan_devices:
none models the ValueError of the two-variable unpacking (caught by the
outer handler, aborting the scan); some none a silently ignored line;
some (some d) an accepted identifier. -/
def scanLine (l : String) : Option (Option String) :=
  if trimS l ≠ "" ∧ pyIn "\t" l then
    match splitS (trimS l) '\t' with
    | [did, status] => some (if did ≠ "" ∧ status = "device" then some did else none)
    | _ => none
  else some none

/-- Left-to-right processing of the listing lines; none models the
exception escaping the loop. -/
def scanGo : List String → Option (List String)
  | [] => some []
  | l :: ls =>
    match scanLine l with
    | none => none
    | some none => scanGo ls
    | some (some did) => (scanGo ls).map (fun r => did :: r)

/-- DeviceManager.scan_devices: on exit code 0 parse the listing text
(strip, split on newlines, drop the header); a non-zero exit code, or
an exception while parsing, yields the empty list. -/
def scan_devices (rc : Int) (stdout : String) : List String :=
  if rc = 0 then (scanGo ((splitS (trimS stdout) '\n').drop 1)).getD [] else []

end DeviceManager

lemma dropWs_eq_self {l : List Char} (h : ∀ c, l.head? = some c → isWsChar c = false) :
    dropWs l = l := by
  cases l with
  | nil => rfl
  | cons c cs => simp [dropWs, h c rfl]

lemma trimL_eq_self {l : List Char} (hh : ∀ c, l.head? = some c → isWsChar c = false)
    (hl : ∀ c, l.reverse.head? = some c → isWsChar c = false) : trimL l = l := by
  unfold trimL
  rw [dropWs_eq_self hl, List.reverse_reverse, dropWs_eq_self hh]

lemma splitOnChar_not_mem {c : Char} {l : List Char} (h : c ∉ l) :
    splitOnChar c l = [l] := by
  induction l with
  | nil => rfl
  | cons x xs ih =>
    have hx : ¬ x = c := by
      intro he
      exact h (by simp [he])
    have hxs : c ∉ xs := fun hm => h (by simp [hm])
    simp [splitOnChar, ih hxs, hx]

lemma splitOnChar_ne_nil (c : Char) (l : List Char) : splitOnChar c l ≠ [] := by
  induction l with
  | nil => simp [splitOnChar]
  | cons x xs ih =>
    unfold splitOnChar
    cases h : splitOnChar c xs with
    | nil => exact absurd h ih
    | cons a as => by_cases hx : x = c <;> simp [hx]

lemma splitOnChar_append {c : Char} {xs ys : List Char} (h : c ∉ xs) :
    splitOnChar c (xs ++ c :: ys) = xs :: splitOnChar c ys := by
  induction xs with
  | nil =>
    show splitOnChar c (c :: ys) = [] :: splitOnChar c ys
    cases hys : splitOnChar c ys with
    | nil => exact absurd hys (splitOnChar_ne_nil c ys)
    | cons a as =>
      unfold splitOnChar
      rw [hys]
      simp
  | cons x xt ih =>
    have hx : ¬ x = c := by
      intro he
      exact h (by simp [he])
    have hxt : c ∉ xt := fun hm => h (by simp [hm])
    have hstep : splitOnChar c (x :: (xt ++ c :: ys)) =
        match splitOnChar c (xt ++ c :: ys) with
        | hh :: t => if x = c then [] :: hh :: t else (x :: hh) :: t
        | [] => [[x]] := rfl
    rw [List.cons_append, hstep, ih hxt]
    simp [hx]


/-- Line text of one listing entry: identifier, tab, state. -/
def entryLine (e : String × String) : String := String.mk (e.1.data ++ '\t' :: e.2.data)

/-- Well-formed listing entry: non-empty identifier not starting with
whitespace, non-empty state not ending with whitespace, and no tab or
newline inside either. -/
def wfEntry (e : String × String) : Bool :=
  match e.1.data, e.2.data.reverse with
  | c :: _, d :: _ =>
    !isWsChar c && !isWsChar d &&
      e.1.data.all (fun x => x ≠ '\t' && x ≠ '\n') &&
      e.2.data.all (fun x => x ≠ '\t' && x ≠ '\n')
  | _, _ => false

lemma containsSub_of_mem {c : Char} {l : List Char} (h : c ∈ l) : containsSub [c] l = true := by
  induction l with
  | nil => cases h
  | cons x xs ih =>
    unfold containsSub
    rcases List.mem_cons.mp h with he | hm
    · subst he
      simp [isPre]
    · simp [ih hm]

lemma scanLine_entryLine {e : String × String} (h : wfEntry e = true) :
    DeviceManager.scanLine (entryLine e) =
      some (if e.2 = "device" then some e.1 else none) := by
  unfold wfEntry at h
  split at h
  case h_2 => cases h
  case h_1 c ctl d dtl hid hst =>
  simp only [Bool.and_eq_true, Bool.not_eq_true'] at h
  obtain ⟨⟨⟨hc, hd⟩, hidall⟩, hstall⟩ := h
  have hnotab1 : '\t' ∉ e.1.data := by
    intro hm
    have := List.all_eq_true.mp hidall _ hm
    simp at this
  have hnotab2 : '\t' ∉ e.2.data := by
    intro hm
    have := List.all_eq_true.mp hstall _ hm
    simp at this
  have htrim : trimL (entryLine e).data = (entryLine e).data := by
    apply trimL_eq_self
    · intro x hx
      rw [show (entryLine e).data = e.1.data ++ '\t' :: e.2.data from rfl, hid] at hx
      simp at hx
      rw [← hx]
      exact hc
    · intro x hx
      rw [show (entryLine e).data = e.1.data ++ '\t' :: e.2.data from rfl,
        List.reverse_append, List.reverse_cons, List.append_assoc, hst] at hx
      simp at hx
      rw [← hx]
      exact hd
  have htrimS : trimS (entryLine e) = entryLine e := by
    unfold trimS
    rw [htrim]
  have hne : entryLine e ≠ "" := by
    unfold entryLine
    rw [hid]
    intro hcon
    have : ((c :: ctl ++ '\t' :: e.2.data) : List Char) = [] := congrArg String.data hcon
    simp at this
  have htab : pyIn "\t" (entryLine e) = true := by
    unfold pyIn
    apply containsSub_of_mem
    show '\t' ∈ (entryLine e).data
    rw [show (entryLine e).data = e.1.data ++ '\t' :: e.2.data from rfl]
    simp
  have hsplit : splitS (entryLine e) '\t' = [e.1, e.2] := by
    unfold splitS
    rw [show (entryLine e).data = e.1.data ++ '\t' :: e.2.data from rfl]
    rw [splitOnChar_append hnotab1, splitOnChar_not_mem hnotab2]
    rfl
  have hid_ne : e.1 ≠ "" := by
    intro hcon
    rw [hcon] at hid
    cases hid
  unfold DeviceManager.scanLine
  rw [if_pos (by rw [htrimS]; exact ⟨hne, htab⟩), htrimS, hsplit]
  by_cases hdev : e.2 = "device"
  · simp [hdev, hid_ne]
  · simp [hdev]

lemma scanGo_eq_filterMap (lines : List String)
    (h : ∀ l ∈ lines, DeviceManager.scanLine l ≠ none) :
    DeviceManager.scanGo lines
      = some (lines.filterMap (fun l => (DeviceManager.scanLine l).join)) := by
  induction lines with
  | nil => rfl
  | cons l ls ih =>
    have hl := h l (by simp)
    have ihh := ih (fun x hx => h x (by simp [hx]))
    cases hsl : DeviceManager.scanLine l with
    | none => exact absurd hsl hl
    | some o =>
      cases o with
      | none => simp [DeviceManager.scanGo, hsl, ihh, List.filterMap_cons]
      | some d => simp [DeviceManager.scanGo, hsl, ihh, List.filterMap_cons]

lemma scanGo_entries (entries : List (String × String))
    (hwf : ∀ e ∈ entries, wfEntry e = true) :
    DeviceManager.scanGo (entries.map entryLine)
      = some ((entries.filter (fun e => e.2 = "device")).map Prod.fst) := by
  induction entries with
  | nil => rfl
  | cons e es ih =>
    have h1 := scanLine_entryLine (hwf e (by simp))
    have h2 := ih (fun x hx => hwf x (by simp [hx]))
    by_cases hd : e.2 = "device"
    · simp [DeviceManager.scanGo, List.map_cons, h1, hd, h2, List.filter_cons]
    · simp [DeviceManager.scanGo, List.map_cons, h1, hd, h2, List.filter_cons]

/-- C2 (amended): on a successful listing run, scan_devices processes
the post-header lines left to right; as long as no line raises (a line
raises exactly when it contains a tab but its stripped text does not
split into exactly two tab-separated fields, e.g. an empty identifier
before the tab), the result is the identifiers of the lines with state
literally "device", in input order; lines with other states, lines with
no tab and blank lines are dropped silently.  A raising line makes the
whole scan return the empty list (see the counterexample). -/
theorem C2_scan_devices_parse :
    (∀ stdout : String,
        (∀ l ∈ (splitS (trimS stdout) '\n').drop 1, DeviceManager.scanLine l ≠ none) →
          DeviceManager.scan_devices 0 stdout =
            ((splitS (trimS stdout) '\n').drop 1).filterMap
              (fun l => (DeviceManager.scanLine l).join))
    ∧ (∀ (stdout : String) (entries : List (String × String)),
        (splitS (trimS stdout) '\n').drop 1 = entries.map entryLine →
        (∀ e ∈ entries, wfEntry e = true) →
          DeviceManager.scan_devices 0 stdout =
            (entries.filter (fun e => e.2 = "device")).map Prod.fst)
    ∧ DeviceManager.scan_devices 0 "List of devices attached\nA1\tdevice\nB2\tunauthorized"
        = ["A1"]
    ∧ DeviceManager.scan_devices 0
        "List of devices attached\nA1\tdevice\njunk line\nB2\tdevice\nC3\toffline"
        = ["A1", "B2"] := by
  refine ⟨?_, ?_, by decide, by decide⟩
  · intro stdout h
    unfold DeviceManager.scan_devices
    rw [if_pos rfl, scanGo_eq_filterMap _ h]
    rfl
  · intro stdout entries hsplit hwf
    unfold DeviceManager.scan_devices
    rw [if_pos rfl, hsplit, scanGo_entries entries hwf]
    rfl

/-- Witness for C2: the amended parsing theorem applied to the concrete
listing with the single well-formed entry A1 / device. -/
theorem C2_scan_devices_parse_witness :
    DeviceManager.scan_devices 0 "List of devices attached\nA1\tdevice" = ["A1"] := by
  have h := C2_scan_devices_parse.2.1 "List of devices attached\nA1\tdevice"
    [("A1", "device")] (by decide) (by decide)
  exact h.trans (by decide)

/-- C2 counterexample: an empty-identifier line (a tab directly
followed by the state) is not skipped silently: the two-variable
unpacking raises, the handler returns the empty list, and even the
preceding well-formed A1 entry is lost, where the claim demands the
result A1. -/
theorem C2_scan_devices_counterexample :
    DeviceManager.scan_devices 0 "List of devices attached\nA1\tdevice\n\tdevice" = [] ∧
    DeviceManager.scan_devices 0 "List of devices attached\nA1\tdevice" = ["A1"] ∧
    ([] : List String) ≠ ["A1"] := by decide

/- ====================================================================
   § 4. The device-presence monitoring loop of
        PhoneConnectorApp.start_device_monitoring (src/main.py,
        lines 125-180) and claim C1.  Python sets of identifiers are
        modelled as duplicate-free lists; set difference keeps the
        iteration order of the left operand.
   ==================================================================== -/

/-- Insertion into a Python-set model: append when absent. -/
def pyInsert (s : List String) (x : String) : List String :=
  if x ∈ s then s else s ++ [x]

/-- Parsing of the adb devices output inside the monitoring loop: skip
the header, and for each non-blank line containing a tab add the
stripped first tab-field to the set when the stripped second tab-field
is the literal device state. -/
def monitorParse (rc : Int) (stdout : String) : List String :=
  if rc = 0 then
    ((splitS (trimS stdout) '\n').drop 1).foldl (fun acc line =>
      if trimS line ≠ "" ∧ pyIn "\t" line then
        if trimS (partAt (splitS line '\t') 1) = "device" then
          pyInsert acc (trimS (partAt (splitS line '\t') 0))
        else acc
      else acc) []
  else []

/-- Notifications emitted by one tick of the monitoring loop. -/
inductive MonEvent where
  | newDevice (d : String)
  | removed (d : String)
deriving DecidableEq

/-- One tick of the monitoring loop: diff the current set against the
last snapshot, emit a new-device notification for every truthy (i.e.
non-empty) added identifier and a removed notification for every truthy
removed identifier, and replace the snapshot only when the diff is
non-empty. -/
def monitorTick (last current : List String) : List MonEvent × List String :=
  let newD := current.filter (fun d => d ∉ last)
  let remD := last.filter (fun d => d ∉ current)
  ((newD.filter (fun d => d ≠ "")).map MonEvent.newDevice
     ++ (remD.filter (fun d => d ≠ "")).map MonEvent.removed,
   if newD ≠ [] ∨ remD ≠ [] then current else last)

/-- The monitoring loop over a schedule of observed device sets,
collecting the notifications of each tick. -/
def monitorRun (last : List String) : List (List String) → List (List MonEvent)
  | [] => []
  | c :: cs => (monitorTick last c).1 :: monitorRun (monitorTick last c).2 cs

lemma newDevice_injective : Function.Injective MonEvent.newDevice := by
  intro a b h
  cases h
  rfl

lemma removed_injective : Function.Injective MonEvent.removed := by
  intro a b h
  cases h
  rfl

lemma count_diff_events {current last : List String} {d : String}
    (hcur : current.Nodup) (hd : d ≠ "") :
    ((current.filter (fun x => x ∉ last)).filter (fun x => x ≠ "")).count d
      = if d ∈ current ∧ d ∉ last then 1 else 0 := by
  rw [List.count_filter (by simp [hd])]
  by_cases hl : d ∈ last
  · rw [List.count_eq_zero_of_not_mem (by simp [hl])]
    simp [hl]
  · rw [List.count_filter (by simp [hl])]
    rw [List.count_eq_of_nodup hcur]
    by_cases hc : d ∈ current <;> simp [hc, hl]

/-- C1 (amended): each tick of the presence-monitoring loop diffs the
current identifier set against the previous snapshot, emits exactly one
new-device notification per non-empty identifier in added and exactly
one removed notification per non-empty identifier in removed (the
empty identifier, which the listing parser can admit, is silently
dropped at notification time), and replaces the snapshot only when
added or removed is non-empty; the spec scenario with sets A1, then
A1 B2, then B2 produces exactly the three expected notifications. -/
theorem C1_monitor_diff :
    (∀ (last current : List String) (d : String),
        last.Nodup → current.Nodup → d ≠ "" →
          ((monitorTick last current).1.count (MonEvent.newDevice d)
              = if d ∈ current ∧ d ∉ last then 1 else 0)
          ∧ ((monitorTick last current).1.count (MonEvent.removed d)
              = if d ∈ last ∧ d ∉ current then 1 else 0)
          ∧ ((monitorTick last current).2 ≠ last →
              current.filter (fun x => x ∉ last) ≠ []
                ∨ last.filter (fun x => x ∉ current) ≠ [])
          ∧ ((monitorTick last current).2 = current ∨ (monitorTick last current).2 = last))
    ∧ monitorRun [] [["A1"], ["A1", "B2"], ["B2"]]
        = [[MonEvent.newDevice "A1"], [MonEvent.newDevice "B2"], [MonEvent.removed "A1"]] := by
  constructor
  · intro last current d hlast hcur hd
    refine ⟨?_, ?_, ?_, ?_⟩
    · show (((current.filter (fun x => x ∉ last)).filter (fun x => x ≠ "")).map
          MonEvent.newDevice
            ++ ((last.filter (fun x => x ∉ current)).filter (fun x => x ≠ "")).map
          MonEvent.removed).count (MonEvent.newDevice d) = _
      rw [List.count_append,
        (List.count_eq_zero_of_not_mem (by simp) :
          List.count (MonEvent.newDevice d)
            (((last.filter (fun x => x ∉ current)).filter (fun x => x ≠ "")).map
              MonEvent.removed) = 0),
        List.count_map_of_injective _ _ newDevice_injective,
        count_diff_events hcur hd]
      omega
    · show (((current.filter (fun x => x ∉ last)).filter (fun x => x ≠ "")).map
          MonEvent.newDevice
            ++ ((last.filter (fun x => x ∉ current)).filter (fun x => x ≠ "")).map
          MonEvent.removed).count (MonEvent.removed d) = _
      rw [List.count_append,
        (List.count_eq_zero_of_not_mem (by simp) :
          List.count (MonEvent.removed d)
            (((current.filter (fun x => x ∉ last)).filter (fun x => x ≠ "")).map
              MonEvent.newDevice) = 0),
        List.count_map_of_injective _ _ removed_injective,
        count_diff_events hlast hd]
      omega
    · intro hne
      by_contra hcon
      push_neg at hcon
      apply hne
      show (if current.filter (fun x => x ∉ last) ≠ []
            ∨ last.filter (fun x => x ∉ current) ≠ [] then current else last) = last
      rw [if_neg (by push_neg; exact hcon)]
    · show (if current.filter (fun x => x ∉ last) ≠ []
          ∨ last.filter (fun x => x ∉ current) ≠ [] then current else last) = current
        ∨ (if current.filter (fun x => x ∉ last) ≠ []
          ∨ last.filter (fun x => x ∉ current) ≠ [] then current else last) = last
      split
      · exact Or.inl rfl
      · exact Or.inr rfl
  · decide

/-- Witness for C1: the per-identifier count statement applied at the
snapshot A1 against the current set A1 B2 for identifier B2. -/
theorem C1_monitor_diff_witness :
    (monitorTick ["A1"] ["A1", "B2"]).1.count (MonEvent.newDevice "B2") = 1 := by
  have h := (C1_monitor_diff.1 ["A1"] ["A1", "B2"] "B2"
    (by decide) (by decide) (by decide)).1
  rw [h]
  decide

/-- C1 counterexample: the listing parser of the monitoring loop admits
the empty identifier (a line that is a tab followed by the device
state); that identifier then sits in added, the snapshot is replaced,
but zero notifications are emitted, where the claim demands exactly one
new-device notification per identifier in added. -/
theorem C1_monitor_diff_counterexample :
    "" ∈ monitorParse 0 "List of devices attached\n\tdevice" ∧
    (monitorTick [] (monitorParse 0 "List of devices attached\n\tdevice")).1 = [] ∧
    (monitorTick [] (monitorParse 0 "List of devices attached\n\tdevice")).2
      = monitorParse 0 "List of devices attached\n\tdevice" ∧
    monitorParse 0 "List of devices attached\n\tdevice" ≠ [] := by decide

/- ====================================================================
   § 5. DeviceManager.get_device_info (src/src/device_manager.py,
        lines 46-156) and claim C6.  Every sub-query is one subprocess
        invocation; its observed behaviour is an exit code and captured
        output, or none when the invocation raises (e.g. a timeout).  A
        raising invocation is caught only by the handler wrapped around
        the WHOLE battery of sub-queries, which stamps an error status
        and stops; a non-zero exit code is handled per field.
   ==================================================================== -/

/-- Exit code and captured standard output of one subprocess run. -/
structure SubRes where
  rc : Int
  out : String
deriving DecidableEq

/-- Device information record built by get_device_info; none marks a
key the Python dict never received. -/
structure DInfo where
  device_id : String
  connection_type : String
  status : String
  device_name : Option String := none
  android_version : Option String := none
  manufacturer : Option String := none
  device_ip : Option String := none
  battery_level : Option String := none
  charging_status : Option String := none
  developer_options : Option String := none
  wifi_debugging : Option String := none
  serial_number : Option String := none
deriving DecidableEq

/-- Observed outcomes of the eight sub-queries of get_device_info, in
source order: product model, release version, manufacturer, route
table, battery dump, adb_enabled setting, adb_wifi_enabled setting,
serial number. -/
structure InfoEnv where
  model : Option SubRes
  version : Option SubRes
  manufacturer : Option SubRes
  route : Option SubRes
  battery : Option SubRes
  adbEnabled : Option SubRes
  wifiEnabled : Option SubRes
  serial : Option SubRes

/-- Stripped output on exit code zero, a fallback value otherwise. -/
def trimOr (r : SubRes) (alt : String) : String :=
  if r.rc = 0 then trimS r.out else alt

/-- Device-ip extraction from the route table output: the first line
containing src yields the first whitespace token after the src marker
(none models the IndexError when nothing follows the marker); no such
line yields the sentinel. -/
def routeIp (r : SubRes) : Option String :=
  if r.rc = 0 then
    match (splitS (trimS r.out) '\n').find? (fun l => pyIn "src" l) with
    | some l =>
      match splitPart1 "src".data l.data with
      | some rest => firstToken rest
      | none => none
    | none => some "Unknown"
  else some "Unknown"

/-- Battery level extraction: when the output mentions a level the
first such line is split on the colon and the second field is kept
(suffixed with a percent sign); otherwise the sentinel.  The outer
some/none distinguishes assigning the key from leaving it unset. -/
def batteryLevelOf (out : String) : Option String :=
  if pyIn "level:" out then
    ((splitS out '\n').find? (fun l => pyIn "level:" l)).map
      (fun l => trimS (partAt (splitS l ':') 1) ++ "%")
  else some "Unknown"

/-- Charging status extraction, analogous to the level but keeping the
raw colon field value. -/
def chargingOf (out : String) : Option String :=
  if pyIn "status:" out then
    ((splitS out '\n').find? (fun l => pyIn "status:" l)).map
      (fun l => trimS (partAt (splitS l ':') 1))
  else some "Unknown"

/-- Enabled/Disabled rendering of a settings read: Enabled exactly when
the stripped output is the digit one; Unknown on a non-zero exit. -/
def enabledDisabled (r : SubRes) : String :=
  if r.rc = 0 then (if trimS r.out = "1" then "Enabled" else "Disabled") else "Unknown"

namespace DeviceManager

/-- DeviceManager.get_device_info: builds the info record sub-query by
sub-query; a raising sub-query (none) stamps the error status and
stops, leaving the remaining keys unset; otherwise the status becomes
Connected at the end. -/
def get_device_info (device_id : String) (env : InfoEnv) : DInfo :=
  let i0 : DInfo :=
    { device_id := device_id
      connection_type := if pyIn ":" device_id then "WiFi" else "USB"
      status := "Unknown" }
  match env.model with
  | none => { i0 with status := "Error" }
  | some rm =>
    let i1 := { i0 with device_name := some (trimOr rm "Unknown Device") }
    match env.version with
    | none => { i1 with status := "Error" }
    | some rv =>
      let i2 := { i1 with android_version := some (trimOr rv "Unknown") }
      match env.manufacturer with
      | none => { i2 with status := "Error" }
      | some rmf =>
        let i3 := { i2 with manufacturer := some (trimOr rmf "Unknown") }
        match env.route with
        | none => { i3 with status := "Error" }
        | some rr =>
          match routeIp rr with
          | none => { i3 with status := "Error" }
          | some ip =>
            let i4 := { i3 with device_ip := some ip }
            match env.battery with
            | none => { i4 with status := "Error" }
            | some rb =>
              let i5 :=
                if rb.rc = 0 then
                  let i5a :=
                    match batteryLevelOf rb.out with
                    | some v => { i4 with battery_level := some v }
                    | none => i4
                  match chargingOf rb.out with
                  | some v => { i5a with charging_status := some v }
                  | none => i5a
                else
                  { i4 with battery_level := some "Unknown",
                            charging_status := some "Unknown" }
              match env.adbEnabled with
              | none => { i5 with status := "Error" }
              | some ra =>
                let i6 := { i5 with developer_options := some (enabledDisabled ra) }
                match env.wifiEnabled with
                | none => { i6 with status := "Error" }
                | some rw =>
                  let i7 := { i6 with wifi_debugging := some (enabledDisabled rw) }
                  match env.serial with
                  | none => { i7 with status := "Error" }
                  | some rs =>
                    { i7 with serial_number := some (trimOr rs "Unknown"),
                              status := "Connected" }

end DeviceManager

/-- No sub-query of an environment raises (and the route extraction
does not hit its IndexError). -/
def infoEnvSafe (env : InfoEnv) : Bool :=
  env.model.isSome && env.version.isSome && env.manufacturer.isSome &&
    (match env.route with
     | some r => (routeIp r).isSome
     | none => false) &&
    env.battery.isSome && env.adbEnabled.isSome && env.wifiEnabled.isSome &&
    env.serial.isSome

lemma containsSub_of_isPre {pat l : List Char} (h : isPre pat l = true) :
    containsSub pat l = true := by
  cases l with
  | nil =>
    cases pat with
    | nil => rfl
    | cons p ps => cases h
  | cons x xs =>
    unfold containsSub
    simp [h]

lemma isPre_first_line :
    ∀ (pat xs : List Char), '\n' ∉ pat → isPre pat xs = true →
      ∀ hh t, splitOnChar '\n' xs = hh :: t → isPre pat hh = true := by
  intro pat
  induction pat with
  | nil =>
    intro xs _ _ hh t _
    rfl
  | cons p ps ih =>
    intro xs hnl h hh t hsp
    cases xs with
    | nil => cases h
    | cons x xs2 =>
      have hp : p = x ∧ isPre ps xs2 = true := by
        simpa [isPre, Bool.and_eq_true] using h
      have hxnl : ¬ x = '\n' := by
        intro he
        exact hnl (by simp [hp.1, he])
      cases hs2 : splitOnChar '\n' xs2 with
      | nil => exact absurd hs2 (splitOnChar_ne_nil _ _)
      | cons hh2 t2 =>
        have hrw : splitOnChar '\n' (x :: xs2) = (x :: hh2) :: t2 := by
          unfold splitOnChar
          rw [hs2]
          simp [hxnl]
        rw [hrw] at hsp
        obtain ⟨he1, he2⟩ := List.cons.inj hsp
        have hps : isPre ps hh2 = true :=
          ih xs2 (fun hm => hnl (by simp [hm])) hp.2 hh2 t2 hs2
        rw [← he1]
        simp [isPre, hp.1, hps]

lemma containsSub_line :
    ∀ (xs pat : List Char), '\n' ∉ pat → containsSub pat xs = true →
      ∃ line ∈ splitOnChar '\n' xs, containsSub pat line = true := by
  intro xs
  induction xs with
  | nil =>
    intro pat _ h
    have hpat : pat = [] := by
      cases pat with
      | nil => rfl
      | cons p ps => cases h
    subst hpat
    exact ⟨[], by simp [splitOnChar], rfl⟩
  | cons x xs2 ih =>
    intro pat hnl h
    have h2 : isPre pat (x :: xs2) = true ∨ containsSub pat xs2 = true := by
      have := h
      unfold containsSub at this
      exact Bool.or_eq_true _ _ ▸ this
    rcases h2 with hpre | hrest
    · cases hs : splitOnChar '\n' (x :: xs2) with
      | nil => exact absurd hs (splitOnChar_ne_nil _ _)
      | cons hh t =>
        exact ⟨hh, by simp [hs],
          containsSub_of_isPre (isPre_first_line pat (x :: xs2) hnl hpre hh t hs)⟩
    · obtain ⟨line, hmem, hcs⟩ := ih pat hnl hrest
      by_cases hx : x = '\n'
      · cases hs2 : splitOnChar '\n' xs2 with
        | nil => exact absurd hs2 (splitOnChar_ne_nil _ _)
        | cons hh2 t2 =>
          have hrw : splitOnChar '\n' (x :: xs2) = [] :: hh2 :: t2 := by
            unfold splitOnChar
            rw [hs2]
            simp [hx]
          rw [hrw]
          rw [hs2] at hmem
          exact ⟨line, List.mem_cons_of_mem _ hmem, hcs⟩
      · cases hs2 : splitOnChar '\n' xs2 with
        | nil => exact absurd hs2 (splitOnChar_ne_nil _ _)
        | cons hh2 t2 =>
          have hrw : splitOnChar '\n' (x :: xs2) = (x :: hh2) :: t2 := by
            unfold splitOnChar
            rw [hs2]
            simp [hx]
          rw [hs2] at hmem
          rw [hrw]
          rcases List.mem_cons.mp hmem with he | hm
          · refine ⟨x :: line, by simp [he], ?_⟩
            unfold containsSub
            simp [hcs]
          · exact ⟨line, by simp [hm], hcs⟩

lemma find_line_isSome {pat out : String} (hnl : '\n' ∉ pat.data)
    (h : pyIn pat out = true) :
    ((splitS out '\n').find? (fun l => pyIn pat l)).isSome := by
  obtain ⟨line, hmem, hcs⟩ := containsSub_line out.data pat.data hnl h
  rw [List.find?_isSome]
  exact ⟨String.mk line, by simp [splitS, List.mem_map]; exact ⟨line, hmem, rfl⟩, hcs⟩

lemma batteryLevelOf_isSome (out : String) : (batteryLevelOf out).isSome := by
  unfold batteryLevelOf
  by_cases h : pyIn "level:" out = true
  · rw [if_pos h]
    obtain ⟨l, hl⟩ := Option.isSome_iff_exists.mp (@find_line_isSome "level:" out (by decide) h)
    rw [hl]
    rfl
  · rw [if_neg h]
    rfl

lemma chargingOf_isSome (out : String) : (chargingOf out).isSome := by
  unfold chargingOf
  by_cases h : pyIn "status:" out = true
  · rw [if_pos h]
    obtain ⟨l, hl⟩ := Option.isSome_iff_exists.mp (@find_line_isSome "status:" out (by decide) h)
    rw [hl]
    rfl
  · rw [if_neg h]
    rfl

/-- C6 (amended): when no sub-query raises, every field of the fetched
info is populated and the status is Connected, and each sub-query that
merely exits non-zero sets its own field to a sentinel without
disturbing the others; the sentinel is the literal Unknown for every
field except the model query, whose sentinel is Unknown Device.  A
raising sub-query (e.g. a timeout), by contrast, aborts the remaining
sub-queries (see the counterexample). -/
theorem C6_get_device_info_fields :
    ∀ (device_id : String) (env : InfoEnv), infoEnvSafe env = true →
      ((DeviceManager.get_device_info device_id env).device_name.isSome
      ∧ (DeviceManager.get_device_info device_id env).android_version.isSome
      ∧ (DeviceManager.get_device_info device_id env).manufacturer.isSome
      ∧ (DeviceManager.get_device_info device_id env).device_ip.isSome
      ∧ (DeviceManager.get_device_info device_id env).battery_level.isSome
      ∧ (DeviceManager.get_device_info device_id env).charging_status.isSome
      ∧ (DeviceManager.get_device_info device_id env).developer_options.isSome
      ∧ (DeviceManager.get_device_info device_id env).wifi_debugging.isSome
      ∧ (DeviceManager.get_device_info device_id env).serial_number.isSome
      ∧ (DeviceManager.get_device_info device_id env).status = "Connected")
      ∧ (∀ r, env.model = some r → r.rc ≠ 0 →
          (DeviceManager.get_device_info device_id env).device_name
            = some "Unknown Device")
      ∧ (∀ r, env.version = some r → r.rc ≠ 0 →
          (DeviceManager.get_device_info device_id env).android_version
            = some "Unknown")
      ∧ (∀ r, env.manufacturer = some r → r.rc ≠ 0 →
          (DeviceManager.get_device_info device_id env).manufacturer
            = some "Unknown")
      ∧ (∀ r, env.route = some r → r.rc ≠ 0 →
          (DeviceManager.get_device_info device_id env).device_ip
            = some "Unknown")
      ∧ (∀ r, env.battery = some r → r.rc ≠ 0 →
          (DeviceManager.get_device_info device_id env).battery_level
              = some "Unknown"
            ∧ (DeviceManager.get_device_info device_id env).charging_status
              = some "Unknown")
      ∧ (∀ r, env.adbEnabled = some r → r.rc ≠ 0 →
          (DeviceManager.get_device_info device_id env).developer_options
            = some "Unknown")
      ∧ (∀ r, env.wifiEnabled = some r → r.rc ≠ 0 →
          (DeviceManager.get_device_info device_id env).wifi_debugging
            = some "Unknown")
      ∧ (∀ r, env.serial = some r → r.rc ≠ 0 →
          (DeviceManager.get_device_info device_id env).serial_number
            = some "Unknown") := by
  intro device_id env hsafe
  obtain ⟨m, v, mf, rt, b, a, w, sr⟩ := env
  simp only [infoEnvSafe, Bool.and_eq_true] at hsafe
  obtain ⟨⟨⟨⟨⟨⟨⟨h1, h2⟩, h3⟩, h4⟩, h5⟩, h6⟩, h7⟩, h8⟩ := hsafe
  obtain ⟨rm, hm⟩ := Option.isSome_iff_exists.mp h1
  obtain ⟨rv, hv⟩ := Option.isSome_iff_exists.mp h2
  obtain ⟨rmf, hmf⟩ := Option.isSome_iff_exists.mp h3
  obtain ⟨rb, hb⟩ := Option.isSome_iff_exists.mp h5
  obtain ⟨ra, ha⟩ := Option.isSome_iff_exists.mp h6
  obtain ⟨rw2, hw⟩ := Option.isSome_iff_exists.mp h7
  obtain ⟨rs, hs⟩ := Option.isSome_iff_exists.mp h8
  subst hm hv hmf hb ha hw hs
  cases rt with
  | none => simp at h4
  | some rr =>
  obtain ⟨ip, hip⟩ := Option.isSome_iff_exists.mp h4
  by_cases hrb : rb.rc = 0
  · obtain ⟨bv, hbv⟩ := Option.isSome_iff_exists.mp (batteryLevelOf_isSome rb.out)
    obtain ⟨cv, hcv⟩ := Option.isSome_iff_exists.mp (chargingOf_isSome rb.out)
    have hinfo : DeviceManager.get_device_info device_id
        ⟨some rm, some rv, some rmf, some rr, some rb, some ra, some rw2, some rs⟩ =
        { device_id := device_id
          connection_type := if pyIn ":" device_id then "WiFi" else "USB"
          status := "Connected"
          device_name := some (trimOr rm "Unknown Device")
          android_version := some (trimOr rv "Unknown")
          manufacturer := some (trimOr rmf "Unknown")
          device_ip := some ip
          battery_level := some bv
          charging_status := some cv
          developer_options := some (enabledDisabled ra)
          wifi_debugging := some (enabledDisabled rw2)
          serial_number := some (trimOr rs "Unknown") } := by
      simp only [DeviceManager.get_device_info, hip, hrb, if_true, hbv, hcv]
    rw [hinfo]
    refine ⟨⟨rfl, rfl, rfl, rfl, rfl, rfl, rfl, rfl, rfl, rfl⟩,
      ?_, ?_, ?_, ?_, ?_, ?_, ?_, ?_⟩
    · intro r hr hrc
      cases hr
      simp [trimOr, hrc]
    · intro r hr hrc
      cases hr
      simp [trimOr, hrc]
    · intro r hr hrc
      cases hr
      simp [trimOr, hrc]
    · intro r hr hrc
      rw [Option.some_inj] at hr
      subst hr
      have hru : routeIp rr = some "Unknown" := by
        unfold routeIp
        rw [if_neg hrc]
      rw [hru] at hip
      rw [← Option.some_inj.mp hip]
    · intro r hr hrc
      cases hr
      exact absurd hrb hrc
    · intro r hr hrc
      cases hr
      simp [enabledDisabled, hrc]
    · intro r hr hrc
      cases hr
      simp [enabledDisabled, hrc]
    · intro r hr hrc
      cases hr
      simp [trimOr, hrc]
  · have hinfo : DeviceManager.get_device_info device_id
        ⟨some rm, some rv, some rmf, some rr, some rb, some ra, some rw2, some rs⟩ =
        { device_id := device_id
          connection_type := if pyIn ":" device_id then "WiFi" else "USB"
          status := "Connected"
          device_name := some (trimOr rm "Unknown Device")
          android_version := some (trimOr rv "Unknown")
          manufacturer := some (trimOr rmf "Unknown")
          device_ip := some ip
          battery_level := some "Unknown"
          charging_status := some "Unknown"
          developer_options := some (enabledDisabled ra)
          wifi_debugging := some (enabledDisabled rw2)
          serial_number := some (trimOr rs "Unknown") } := by
      simp only [DeviceManager.get_device_info, hip, hrb, if_false]
    rw [hinfo]
    refine ⟨⟨rfl, rfl, rfl, rfl, rfl, rfl, rfl, rfl, rfl, rfl⟩,
      ?_, ?_, ?_, ?_, ?_, ?_, ?_, ?_⟩
    · intro r hr hrc
      cases hr
      simp [trimOr, hrc]
    · intro r hr hrc
      cases hr
      simp [trimOr, hrc]
    · intro r hr hrc
      cases hr
      simp [trimOr, hrc]
    · intro r hr hrc
      rw [Option.some_inj] at hr
      subst hr
      have hru : routeIp rr = some "Unknown" := by
        unfold routeIp
        rw [if_neg hrc]
      rw [hru] at hip
      rw [← Option.some_inj.mp hip]
    · intro r hr hrc
      cases hr
      exact ⟨rfl, rfl⟩
    · intro r hr hrc
      cases hr
      simp [enabledDisabled, hrc]
    · intro r hr hrc
      cases hr
      simp [enabledDisabled, hrc]
    · intro r hr hrc
      cases hr
      simp [trimOr, hrc]

/-- Safe concrete environment used to witness C6. -/
def infoEnvW : InfoEnv :=
  { model := some ⟨0, "Pixel 7\n"⟩
    version := some ⟨1, ""⟩
    manufacturer := some ⟨0, "Google\n"⟩
    route := some ⟨0, "default via 10.0.0.1 dev wlan0 src 10.0.0.7 metric 100\n"⟩
    battery := some ⟨0, "  level: 93\n  status: 2\n"⟩
    adbEnabled := some ⟨0, "1\n"⟩
    wifiEnabled := some ⟨1, ""⟩
    serial := some ⟨0, "AB123\n"⟩ }

/-- Witness for C6: in the safe environment infoEnvW, where the version
sub-query exits non-zero, the fetch still completes with every field
populated, the version field carrying its sentinel. -/
theorem C6_get_device_info_fields_witness :
    (DeviceManager.get_device_info "X" infoEnvW).device_name.isSome
    ∧ (DeviceManager.get_device_info "X" infoEnvW).status = "Connected"
    ∧ (DeviceManager.get_device_info "X" infoEnvW).android_version = some "Unknown" := by
  have h := C6_get_device_info_fields "X" infoEnvW (by decide)
  exact ⟨h.1.1, h.1.2.2.2.2.2.2.2.2.2, h.2.2.1 ⟨1, ""⟩ rfl (by decide)⟩

/-- C6 counterexample: (a) a model sub-query that exits non-zero sets
the model field to Unknown Device, not to the sentinel Unknown the
claim names; (b) a version sub-query that raises (e.g. a timeout)
aborts the fetch: the manufacturer sub-query is never executed, its
field stays unset, and the status records an error, where the claim
says every remaining sub-query is still executed and populated. -/
theorem C6_get_device_info_counterexample :
    (DeviceManager.get_device_info "X"
        ⟨some ⟨1, ""⟩, some ⟨1, ""⟩, some ⟨1, ""⟩, some ⟨1, ""⟩,
         some ⟨1, ""⟩, some ⟨1, ""⟩, some ⟨1, ""⟩, some ⟨1, ""⟩⟩).device_name
      = some "Unknown Device"
    ∧ some "Unknown Device" ≠ some "Unknown"
    ∧ (DeviceManager.get_device_info "X"
        ⟨some ⟨0, "Pixel"⟩, none, some ⟨0, "Google"⟩, some ⟨0, ""⟩,
         some ⟨0, ""⟩, some ⟨0, ""⟩, some ⟨0, ""⟩, some ⟨0, ""⟩⟩).manufacturer
      = none
    ∧ (DeviceManager.get_device_info "X"
        ⟨some ⟨0, "Pixel"⟩, none, some ⟨0, "Google"⟩, some ⟨0, ""⟩,
         some ⟨0, ""⟩, some ⟨0, ""⟩, some ⟨0, ""⟩, some ⟨0, ""⟩⟩).status
      = "Error" := by decide

/- ====================================================================
   § 6. DeviceManager.connect_usb / connect_wifi and
        ConnectionManager.connect_device, with claims C4, C5 and C7.
   ==================================================================== -/

/-- State owned by one DeviceManager: the connected-device list and the
device_info dictionary (an association list, newest binding first). -/
structure DMState where
  connected : List String
  infoMap : List (String × DInfo)
deriving DecidableEq

/-- Dictionary update for the device_info map. -/
def dictSet (m : List (String × DInfo)) (k : String) (v : DInfo) :
    List (String × DInfo) :=
  (k, v) :: m.filter (fun p => p.1 ≠ k)

/-- Observed environment of one connect_wifi call: result of the raw
socket connect, and exit code with captured output of the bridge
connect subcommand. -/
structure WifiEnv where
  sockResult : Int
  adbExit : Int
  adbStdout : String
deriving DecidableEq

/-- Observed environment of one connect_usb call: the echo liveness
probe (none when it raises) and the outcomes of the internal
get_device_info sub-queries. -/
structure UsbEnv where
  echo : Option SubRes
  info : InfoEnv

namespace DeviceManager

/-- DeviceManager.connect_wifi: parse the port (int raises on a
non-numeric string, caught as failure), require the raw TCP probe to
succeed, then require the bridge connect subcommand to exit zero AND
to print output containing the literal connected, case-insensitively. -/
def connect_wifi (ip port : String) (env : WifiEnv) : Bool :=
  match digitsToNat (trimS port).data with
  | none => false
  | some _ =>
    if env.sockResult ≠ 0 then false
    else env.adbExit == 0 && pyIn "connected" (lowerS env.adbStdout)

/-- DeviceManager.connect_usb: immediately true for an identifier
already in the connected list; otherwise probe the device with an echo
command, and on exit zero append the identifier (guarded again against
duplicates) and fetch-and-cache its info.  The internal fetch and the
explicit dictionary store write the same value, modelled as one
update. -/
def connect_usb (st : DMState) (env : UsbEnv) (device_id : String) : Bool × DMState :=
  if device_id ∈ st.connected then (true, st)
  else
    match env.echo with
    | none => (false, st)
    | some r =>
      if r.rc = 0 then
        let st1 : DMState :=
          { st with connected :=
              if device_id ∈ st.connected then st.connected
              else st.connected ++ [device_id] }
        let info := get_device_info device_id env.info
        (true, { st1 with infoMap := dictSet st1.infoMap device_id info })
      else (false, st)

end DeviceManager

/-- Coordinator state of one ConnectionManager: the current-device
slot, its cached info, the monitoring flag and the underlying device
manager. -/
structure CMState where
  current_device : Option String
  current_device_info : Option DInfo
  monitoring : Bool
  dm : DMState
deriving DecidableEq

/-- Callbacks fired by ConnectionManager, as events. -/
inductive CMEvent where
  | connected (device_id : String) (info : DInfo)
  | disconnected (device_id : Option String)
  | infoUpdated (device_id : String) (info : DInfo)
deriving DecidableEq

/-- Observed environment of one connect_device call: the echo probe and
info sub-queries of a USB connect, the wifi connect observations, and
the sub-queries of the coordinator's own info fetch. -/
structure ConnectEnv where
  echo : Option SubRes
  info : InfoEnv
  wifi : WifiEnv
  info2 : InfoEnv

namespace ConnectionManager

/-- Success/failure continuation of connect_device: on transport-level
success record the identifier as current, cache the fetched info, set
the monitoring flag and fire on_device_connected; on failure return
false with the coordinator fields untouched (only the underlying device
manager may have changed). -/
def connect_finish (st : CMState) (device_id : String) (info : DInfo)
    (res : Bool × DMState) : Bool × CMState × List CMEvent :=
  if res.1 then
    (true,
     { current_device := some device_id
       current_device_info := some info
       monitoring := true
       dm := { res.2 with infoMap := dictSet res.2.infoMap device_id info } },
     [CMEvent.connected device_id info])
  else (false, { st with dm := res.2 }, [])

/-- ConnectionManager.connect_device: dispatch on the transport (usb
uses connect_usb, anything else the wifi path, which first rejects a
falsy ip or port), then finish as connect_finish describes.  The info
fetch feeding connect_finish is only incorporated on the success
branch, matching the source's evaluation on success only. -/
def connect_device (st : CMState) (env : ConnectEnv)
    (device_id connection_type : String) (wifi_ip wifi_port : Option String) :
    Bool × CMState × List CMEvent :=
  let res : Bool × DMState :=
    if connection_type = "usb" then
      DeviceManager.connect_usb st.dm ⟨env.echo, env.info⟩ device_id
    else
      match wifi_ip, wifi_port with
      | some ip, some port =>
        if ip = "" ∨ port = "" then (false, st.dm)
        else (DeviceManager.connect_wifi ip port env.wifi, st.dm)
      | _, _ => (false, st.dm)
  connect_finish st device_id (DeviceManager.get_device_info device_id env.info2) res

end ConnectionManager

/-- C4: once the port parses and the raw TCP probe succeeds (the
preconditions for the bridge connect subcommand to be invoked at all),
connect_wifi reports success exactly when that subcommand exits zero
AND its output contains the substring connected case-insensitively; in
particular exit zero with output lacking the marker is failure, and
the marker is matched after lower-casing. -/
theorem C4_connect_wifi_ack :
    (∀ (ip port : String) (env : WifiEnv),
        (digitsToNat (trimS port).data).isSome →
        env.sockResult = 0 →
          (DeviceManager.connect_wifi ip port env = true ↔
            env.adbExit = 0 ∧ pyIn "connected" (lowerS env.adbStdout) = true))
    ∧ DeviceManager.connect_wifi "10.0.0.5" "5555" ⟨0, 0, "failed to authenticate"⟩ = false
    ∧ DeviceManager.connect_wifi "10.0.0.5" "5555"
        ⟨0, 0, "already Connected to 10.0.0.5:5555"⟩ = true := by
  refine ⟨?_, by decide, by decide⟩
  intro ip port env hport hsock
  obtain ⟨n, hn⟩ := Option.isSome_iff_exists.mp hport
  unfold DeviceManager.connect_wifi
  rw [hn, if_neg (by simp [hsock])]
  simp [Bool.and_eq_true]

/-- Witness for C4: the acknowledgment characterisation applied at a
concrete reachable environment whose bridge output reports success. -/
theorem C4_connect_wifi_ack_witness :
    DeviceManager.connect_wifi "192.168.1.7" "5555"
      ⟨0, 0, "connected to 192.168.1.7:5555"⟩ = true := by
  exact (C4_connect_wifi_ack.1 "192.168.1.7" "5555"
    ⟨0, 0, "connected to 192.168.1.7:5555"⟩ (by decide) rfl).mpr (by decide)

lemma connect_finish_spec (st : CMState) (device_id : String) (info : DInfo)
    (res : Bool × DMState) :
    ((ConnectionManager.connect_finish st device_id info res).1 = false →
      (ConnectionManager.connect_finish st device_id info res).2.1.current_device
          = st.current_device
      ∧ (ConnectionManager.connect_finish st device_id info res).2.1.current_device_info
          = st.current_device_info
      ∧ (ConnectionManager.connect_finish st device_id info res).2.1.monitoring
          = st.monitoring
      ∧ (ConnectionManager.connect_finish st device_id info res).2.2 = [])
    ∧ ((ConnectionManager.connect_finish st device_id info res).1 = true →
      (ConnectionManager.connect_finish st device_id info res).2.1.current_device
          = some device_id
      ∧ (ConnectionManager.connect_finish st device_id info res).2.1.current_device_info
          = some info
      ∧ (ConnectionManager.connect_finish st device_id info res).2.1.monitoring = true
      ∧ (ConnectionManager.connect_finish st device_id info res).2.2
          = [CMEvent.connected device_id info]) := by
  obtain ⟨b, dm2⟩ := res
  cases b
  · exact ⟨fun _ => ⟨rfl, rfl, rfl, rfl⟩, fun h => Bool.noConfusion h⟩
  · exact ⟨fun h => Bool.noConfusion h, fun _ => ⟨rfl, rfl, rfl, rfl⟩⟩

/-- C5: if connect_device fails it returns false, leaves the
current-device slot, cached info and monitoring flag exactly as they
were and fires no callback; if it succeeds it records the identifier as
current, caches the freshly fetched info, sets the monitoring flag and
fires on_device_connected with the identifier and that info. -/
theorem C5_connect_device_state :
    ∀ (st : CMState) (env : ConnectEnv) (device_id connection_type : String)
      (wifi_ip wifi_port : Option String),
      ((ConnectionManager.connect_device st env device_id connection_type
          wifi_ip wifi_port).1 = false →
        (ConnectionManager.connect_device st env device_id connection_type
            wifi_ip wifi_port).2.1.current_device = st.current_device
        ∧ (ConnectionManager.connect_device st env device_id connection_type
            wifi_ip wifi_port).2.1.current_device_info = st.current_device_info
        ∧ (ConnectionManager.connect_device st env device_id connection_type
            wifi_ip wifi_port).2.1.monitoring = st.monitoring
        ∧ (ConnectionManager.connect_device st env device_id connection_type
            wifi_ip wifi_port).2.2 = [])
      ∧ ((ConnectionManager.connect_device st env device_id connection_type
          wifi_ip wifi_port).1 = true →
        (ConnectionManager.connect_device st env device_id connection_type
            wifi_ip wifi_port).2.1.current_device = some device_id
        ∧ (ConnectionManager.connect_device st env device_id connection_type
            wifi_ip wifi_port).2.1.current_device_info
            = some (DeviceManager.get_device_info device_id env.info2)
        ∧ (ConnectionManager.connect_device st env device_id connection_type
            wifi_ip wifi_port).2.1.monitoring = true
        ∧ (ConnectionManager.connect_device st env device_id connection_type
            wifi_ip wifi_port).2.2
            = [CMEvent.connected device_id
                (DeviceManager.get_device_info device_id env.info2)]) := by
  intro st env device_id connection_type wifi_ip wifi_port
  exact connect_finish_spec st device_id
    (DeviceManager.get_device_info device_id env.info2)
    (if connection_type = "usb" then
        DeviceManager.connect_usb st.dm ⟨env.echo, env.info⟩ device_id
      else
        match wifi_ip, wifi_port with
        | some ip, some port =>
          if ip = "" ∨ port = "" then (false, st.dm)
          else (DeviceManager.connect_wifi ip port env.wifi, st.dm)
        | _, _ => (false, st.dm))

/-- Witness for C5: the failure half applied to a USB connect whose
echo probe exits non-zero, and the success half applied to one whose
echo probe succeeds. -/
theorem C5_connect_device_state_witness :
    (ConnectionManager.connect_device
        ⟨none, none, false, ⟨[], []⟩⟩
        ⟨some ⟨1, ""⟩, infoEnvW, ⟨0, 0, ""⟩, infoEnvW⟩ "A1" "usb" none none).2.2 = []
    ∧ (ConnectionManager.connect_device
        ⟨none, none, false, ⟨[], []⟩⟩
        ⟨some ⟨0, "Connected"⟩, infoEnvW, ⟨0, 0, ""⟩, infoEnvW⟩ "A1" "usb"
          none none).2.1.monitoring = true := by
  constructor
  · exact ((C5_connect_device_state ⟨none, none, false, ⟨[], []⟩⟩
      ⟨some ⟨1, ""⟩, infoEnvW, ⟨0, 0, ""⟩, infoEnvW⟩ "A1" "usb" none none).1
      (by decide)).2.2.2
  · exact ((C5_connect_device_state ⟨none, none, false, ⟨[], []⟩⟩
      ⟨some ⟨0, "Connected"⟩, infoEnvW, ⟨0, 0, ""⟩, infoEnvW⟩ "A1" "usb" none none).2
      (by decide)).2.2.1

/- ====================================================================
   § 7. The auto-connect path of main.py (auto_connect_device and
        auto_connect_wifi) and claim C7.
   ==================================================================== -/

/-- Application-level state touched by the auto-connect path: the
coordinator's connected set, the application device manager's connected
list, and the last persisted wifi configuration. -/
structure AppState where
  cmConnected : List String
  dmConnected : List String
  wifiConfigSaved : Option (String × String)
deriving DecidableEq

/-- Observed environment of one auto-connect attempt: the discovered
phone wifi address (none when no extraction strategy yields one), the
host address, the port-5555 reachability probe, and the wifi connect
observations. -/
structure AutoEnv where
  phone_ip : Option String
  pc_ip : String
  reachable : Bool
  wifi : WifiEnv

namespace PhoneConnectorApp

/-- PhoneConnectorApp.auto_connect_wifi: abort when port 5555 is
unreachable; otherwise run the wifi connect, and on success append
ip:5555 to the device list (guarded against duplicates) and persist
the configuration. -/
def auto_connect_wifi (st : AppState) (env : AutoEnv) (phone_ip : String) :
    Bool × AppState :=
  if env.reachable = false then (false, st)
  else if DeviceManager.connect_wifi phone_ip "5555" env.wifi then
    let did := phone_ip ++ ":5555"
    (true,
     { st with
        dmConnected :=
          if did ∈ st.dmConnected then st.dmConnected else st.dmConnected ++ [did]
        wifiConfigSaved := some (phone_ip, "5555") })
  else (false, st)

/-- PhoneConnectorApp.auto_connect_device: return immediately when the
identifier is already in the coordinator's connected set; otherwise,
with a discovered wifi address on the same network as the host, attempt
the wifi promotion, and on success add the identifier to the connected
set; every abort leaves the state as the promotion attempt left it
(unchanged when no connect was issued). -/
def auto_connect_device (st : AppState) (env : AutoEnv) (device_id : String) :
    AppState :=
  if device_id ∈ st.cmConnected then st
  else
    match env.phone_ip with
    | none => st
    | some pip =>
      if is_same_network pip env.pc_ip then
        let r := auto_connect_wifi st env pip
        if r.1 then { r.2 with cmConnected := pyInsert r.2.cmConnected device_id }
        else r.2
      else st

end PhoneConnectorApp

lemma connect_usb_mem {st : DMState} {env : UsbEnv} {device_id : String}
    (h : device_id ∈ st.connected) :
    DeviceManager.connect_usb st env device_id = (true, st) := by
  unfold DeviceManager.connect_usb
  rw [if_pos h]

/-- C7: connect is idempotent on the connected set: an identifier
already in the device manager's connected list makes connect_usb return
true without touching the state; after any successful connect_usb a
second call for the same identifier returns true and leaves the state
of the first call unchanged (so the connected set after the second call
equals the set after the first, with no duplicate entry); and the
auto-connect sub-procedure returns with the state untouched for an
identifier already in the coordinator's connected set. -/
theorem C7_connect_idempotent :
    (∀ (st : DMState) (env : UsbEnv) (device_id : String),
        device_id ∈ st.connected →
          DeviceManager.connect_usb st env device_id = (true, st))
    ∧ (∀ (st : DMState) (env env2 : UsbEnv) (device_id : String),
        (DeviceManager.connect_usb st env device_id).1 = true →
          DeviceManager.connect_usb (DeviceManager.connect_usb st env device_id).2
              env2 device_id
            = (true, (DeviceManager.connect_usb st env device_id).2))
    ∧ (∀ (st : AppState) (env : AutoEnv) (device_id : String),
        device_id ∈ st.cmConnected →
          PhoneConnectorApp.auto_connect_device st env device_id = st) := by
  refine ⟨?_, ?_, ?_⟩
  · intro st env device_id h
    exact connect_usb_mem h
  · intro st env env2 device_id hsucc
    have hmem : device_id ∈ (DeviceManager.connect_usb st env device_id).2.connected := by
      unfold DeviceManager.connect_usb at hsucc ⊢
      by_cases h : device_id ∈ st.connected
      · rw [if_pos h]
        exact h
      · rw [if_neg h] at hsucc ⊢
        cases hecho : env.echo with
        | none =>
          rw [hecho] at hsucc
          exact Bool.noConfusion hsucc
        | some r =>
          rw [hecho] at hsucc
          dsimp only at hsucc ⊢
          by_cases hrc : r.rc = 0
          · rw [if_pos hrc]
            simp [h]
          · rw [if_neg hrc] at hsucc
            exact Bool.noConfusion hsucc
    exact connect_usb_mem hmem
  · intro st env device_id h
    unfold PhoneConnectorApp.auto_connect_device
    rw [if_pos h]

/-- Witness for C7: all three components applied at concrete states:
an already-connected A1 is reconnected without change, a fresh
successful connect followed by a second connect leaves the state of the
first, and auto-connect skips an already-connected A1. -/
theorem C7_connect_idempotent_witness :
    DeviceManager.connect_usb ⟨["A1"], []⟩ ⟨some ⟨0, ""⟩, infoEnvW⟩ "A1"
      = (true, ⟨["A1"], []⟩)
    ∧ DeviceManager.connect_usb
        (DeviceManager.connect_usb ⟨[], []⟩ ⟨some ⟨0, ""⟩, infoEnvW⟩ "A1").2
        ⟨some ⟨1, ""⟩, infoEnvW⟩ "A1"
      = (true, (DeviceManager.connect_usb ⟨[], []⟩ ⟨some ⟨0, ""⟩, infoEnvW⟩ "A1").2)
    ∧ PhoneConnectorApp.auto_connect_device ⟨["A1"], [], none⟩
        ⟨some "192.168.1.9", "192.168.1.5", true, ⟨0, 0, "connected"⟩⟩ "A1"
      = ⟨["A1"], [], none⟩ := by
  refine ⟨?_, ?_, ?_⟩
  · exact C7_connect_idempotent.1 ⟨["A1"], []⟩ ⟨some ⟨0, ""⟩, infoEnvW⟩ "A1" (by decide)
  · exact C7_connect_idempotent.2.1 ⟨[], []⟩ ⟨some ⟨0, ""⟩, infoEnvW⟩
      ⟨some ⟨1, ""⟩, infoEnvW⟩ "A1" (by decide)
  · exact C7_connect_idempotent.2.2 ⟨["A1"], [], none⟩
      ⟨some "192.168.1.9", "192.168.1.5", true, ⟨0, 0, "connected"⟩⟩ "A1" (by decide)

/- ====================================================================
   § 8. ConnectionManager._monitor_device (src/src/connection_manager.py,
        lines 149-171) and claim C10.  One loop iteration observes the
        device manager's connected list and, when refreshing, the info
        sub-query outcomes; the run processes a finite schedule of such
        observations.
   ==================================================================== -/

/-- Observation available to one monitor iteration. -/
structure MonObs where
  dmConnected : List String
  info : InfoEnv

namespace ConnectionManager

/-- State effect of refresh_device_info: cache the freshly fetched
info on the coordinator and in the device manager's dictionary. -/
def refreshState (st : CMState) (d : String) (env : InfoEnv) : CMState :=
  { st with
      current_device_info := some (DeviceManager.get_device_info d env)
      dm := { st.dm with
        infoMap := dictSet st.dm.infoMap d (DeviceManager.get_device_info d env) } }

/-- ConnectionManager._monitor_device: while the monitoring flag is set
and a current device exists, check that the current device is still in
the connected list; if it vanished, clear the current-device slot, the
cached info and the monitoring flag, and only then fire
on_device_disconnected with the (now cleared) current device, and stop;
otherwise refresh and cache the device info, fire
on_device_info_updated, and continue with the next observation. -/
def monitor_device : CMState → List MonObs → List CMEvent × CMState
  | st, [] => ([], st)
  | st, obs :: rest =>
    match st.current_device, st.monitoring with
    | some d, true =>
      if d ∈ obs.dmConnected then
        let r := monitor_device (refreshState st d obs.info) rest
        (CMEvent.infoUpdated d (DeviceManager.get_device_info d obs.info) :: r.1, r.2)
      else
        let st2 : CMState :=
          { current_device := none, current_device_info := none,
            monitoring := false, dm := st.dm }
        ([CMEvent.disconnected st2.current_device], st2)
    | _, _ => ([], st)

end ConnectionManager

/-- Whether an event is a disconnect notification. -/
def isDisconnectEvent : CMEvent → Bool
  | CMEvent.disconnected _ => true
  | _ => false

/-- C10: over any observation schedule, the monitor loop never fires the
disconnect callback with a device identifier (the slot is cleared
before the callback reads it, so the argument is always none), fires it
at most once per run, and whenever it fires the final state has the
current-device slot and cached info cleared and monitoring stopped. -/
theorem C10_monitor_disconnect_callback :
    ∀ (st : CMState) (sched : List MonObs),
      (∀ x : String,
        CMEvent.disconnected (some x) ∉ (ConnectionManager.monitor_device st sched).1)
      ∧ ((ConnectionManager.monitor_device st sched).1.countP isDisconnectEvent ≤ 1)
      ∧ (CMEvent.disconnected none ∈ (ConnectionManager.monitor_device st sched).1 →
          (ConnectionManager.monitor_device st sched).2.current_device = none
          ∧ (ConnectionManager.monitor_device st sched).2.current_device_info = none
          ∧ (ConnectionManager.monitor_device st sched).2.monitoring = false) := by
  intro st sched
  induction sched generalizing st with
  | nil =>
    refine ⟨fun x => by simp [ConnectionManager.monitor_device], by
      simp [ConnectionManager.monitor_device], fun h => ?_⟩
    simp [ConnectionManager.monitor_device] at h
  | cons obs rest ih =>
    cases hcd : st.current_device with
    | none =>
      refine ⟨fun x => ?_, ?_, fun h => ?_⟩
      · simp [ConnectionManager.monitor_device, hcd]
      · simp [ConnectionManager.monitor_device, hcd]
      · simp [ConnectionManager.monitor_device, hcd] at h
    | some d =>
      cases hmon : st.monitoring with
      | false =>
        refine ⟨fun x => ?_, ?_, fun h => ?_⟩
        · simp [ConnectionManager.monitor_device, hcd, hmon]
        · simp [ConnectionManager.monitor_device, hcd, hmon]
        · simp [ConnectionManager.monitor_device, hcd, hmon] at h
      | true =>
        by_cases hmem : d ∈ obs.dmConnected
        · have hred : ConnectionManager.monitor_device st (obs :: rest)
              = (CMEvent.infoUpdated d (DeviceManager.get_device_info d obs.info) ::
                  (ConnectionManager.monitor_device
                    (ConnectionManager.refreshState st d obs.info) rest).1,
                 (ConnectionManager.monitor_device
                    (ConnectionManager.refreshState st d obs.info) rest).2) := by
            rw [ConnectionManager.monitor_device]
            rw [hcd, hmon]
            dsimp only
            rw [if_pos hmem]
          obtain ⟨ih1, ih2, ih3⟩ := ih (ConnectionManager.refreshState st d obs.info)
          refine ⟨fun x => ?_, ?_, fun h => ?_⟩
          · rw [hred]
            intro hin
            rcases List.mem_cons.mp hin with he | hm
            · cases he
            · exact ih1 x hm
          · rw [hred]
            simp only [List.countP_cons]
            have : isDisconnectEvent
                (CMEvent.infoUpdated d (DeviceManager.get_device_info d obs.info)) = false := rfl
            simp [this, ih2]
          · rw [hred] at h ⊢
            rcases List.mem_cons.mp h with he | hm
            · cases he
            · exact ih3 hm
        · have hred : ConnectionManager.monitor_device st (obs :: rest)
              = ([CMEvent.disconnected none],
                 { current_device := none, current_device_info := none,
                   monitoring := false, dm := st.dm }) := by
            rw [ConnectionManager.monitor_device]
            rw [hcd, hmon]
            dsimp only
            rw [if_neg hmem]
          refine ⟨fun x => ?_, ?_, fun _ => ?_⟩
          · rw [hred]
            simp
          · rw [hred]
            simp [isDisconnectEvent]
          · rw [hred]
            exact ⟨rfl, rfl, rfl⟩

/-- Witness for C10: the callback-clearing component applied to a run
whose single observation no longer lists the current device A1: the
emitted event carries none and the final state is cleared. -/
theorem C10_monitor_disconnect_callback_witness :
    (ConnectionManager.monitor_device
        ⟨some "A1", none, true, ⟨["A1"], []⟩⟩ [⟨[], infoEnvW⟩]).2.current_device = none
    ∧ (ConnectionManager.monitor_device
        ⟨some "A1", none, true, ⟨["A1"], []⟩⟩ [⟨[], infoEnvW⟩]).2.monitoring = false := by
  have h := (C10_monitor_disconnect_callback
    ⟨some "A1", none, true, ⟨["A1"], []⟩⟩ [⟨[], infoEnvW⟩]).2.2 (by decide)
  exact ⟨h.1, h.2.2⟩

/- ====================================================================
   § 9. The persisted wifi configuration of main.py (save_wifi_config
        and load_wifi_config) and claim C9.  The JSON file content is
        modelled as a structured object (a key/value list of strings
        and numbers); the json module's serialisation of such an object
        is faithful, so writing and reading the file is carrying the
        object across.
   ==================================================================== -/

/-- JSON values appearing in the wifi configuration. -/
inductive JVal where
  | jstr (s : String)
  | jnum (n : Nat)
deriving DecidableEq

/-- JSON object as a key/value list. -/
abbrev JObj := List (String × JVal)

/-- Key lookup in a JSON object. -/
def jlookup (o : JObj) (k : String) : Option JVal :=
  (o.find? (fun p => p.1 = k)).map Prod.snd

namespace PhoneConnectorApp

/-- PhoneConnectorApp.save_wifi_config: build the new configuration
from the given ip and port, the formatted current time, and the
previous connection count (defaulting to zero) plus one, and write it
out; a non-numeric stored count raises in the addition (caught, nothing
written), modelled as none. -/
def save_wifi_config (prev : JObj) (ip port now : String) : Option JObj :=
  match (jlookup prev "connection_count").getD (JVal.jnum 0) with
  | JVal.jnum n =>
    some [("last_ip", JVal.jstr ip), ("last_port", JVal.jstr port),
          ("last_connection_time", JVal.jstr now),
          ("connection_count", JVal.jnum (n + 1))]
  | JVal.jstr _ => none

/-- PhoneConnectorApp.load_wifi_config: the parsed file when present
and readable, the empty configuration otherwise. -/
def load_wifi_config (file : Option JObj) : JObj := file.getD []

end PhoneConnectorApp

/-- C9: reloading the configuration written after a successful connect
reproduces the ip under last_ip and the port under last_port; in
particular 10.0.0.5 / 5555 round-trips. -/
theorem C9_wifi_config_roundtrip :
    (∀ (prev : JObj) (ip port now : String) (cfg : JObj),
        PhoneConnectorApp.save_wifi_config prev ip port now = some cfg →
          jlookup (PhoneConnectorApp.load_wifi_config (some cfg)) "last_ip"
              = some (JVal.jstr ip)
          ∧ jlookup (PhoneConnectorApp.load_wifi_config (some cfg)) "last_port"
              = some (JVal.jstr port))
    ∧ (PhoneConnectorApp.save_wifi_config [] "10.0.0.5" "5555" "2024-01-01 00:00:00").map
        (fun c => (jlookup (PhoneConnectorApp.load_wifi_config (some c)) "last_ip",
                   jlookup (PhoneConnectorApp.load_wifi_config (some c)) "last_port"))
      = some (some (JVal.jstr "10.0.0.5"), some (JVal.jstr "5555")) := by
  refine ⟨?_, by decide⟩
  intro prev ip port now cfg h
  unfold PhoneConnectorApp.save_wifi_config at h
  split at h
  case h_1 n heq =>
    rw [Option.some_inj] at h
    subst h
    constructor
    · simp [PhoneConnectorApp.load_wifi_config, jlookup, List.find?]
    · simp [PhoneConnectorApp.load_wifi_config, jlookup, List.find?]
  case h_2 => cases h

/-- Witness for C9: the round-trip applied to the configuration written
for 10.0.0.5 and 5555 over an empty previous configuration. -/
theorem C9_wifi_config_roundtrip_witness :
    jlookup (PhoneConnectorApp.load_wifi_config
        (some [("last_ip", JVal.jstr "10.0.0.5"), ("last_port", JVal.jstr "5555"),
               ("last_connection_time", JVal.jstr "t"),
               ("connection_count", JVal.jnum 1)])) "last_ip"
      = some (JVal.jstr "10.0.0.5") := by
  exact (C9_wifi_config_roundtrip.1 [] "10.0.0.5" "5555" "t" _ (by decide)).1
